import Mathlib

/-!
Verification of the attach bridge `saba-docker-io`
(`src/docker/saba-docker-io/main.go`).

The bridge is a sequential Go program.  We embed it shallowly as a pure
function from the observable inputs — the argument vector `os.Args` and a
`World` oracle supplying the results of the OS interactions
(`exec.LookPath`, `syscall.Exec`, the replay subprocess's `Run` result, and
`os.Environ`) — to the ordered list of effects the program performs (its
trace) together with its final outcome (an `os.Exit` code, or the process
image being replaced by `syscall.Exec`).

Go's `cmd.Run()` starts the subprocess and blocks until it exits; it is
therefore modelled as a single atomic `replayRun` event that denotes the
complete run-to-termination of the log subprocess.  `syscall.Exec` either
replaces the process image (the program never resumes, outcome `replaced`)
or returns an error; both cases record an `execImage` event marking the
image-transfer attempt.
-/

namespace SabaDockerBridge

/-- Where a subprocess's standard stream is wired.  In phase 1 the Go code
sets `logs.Stdout = os.Stdout` and `logs.Stderr = os.Stdout`. -/
inductive StreamDest where
  | toStdout
  | toStderr
  deriving DecidableEq, Repr

/-- One observable effect of the bridge, in program order. -/
inductive Event where
  /-- Phase 1: `exec.Command(prog, args...)` run to completion with the
  given stream wiring (`cmd.Run()` blocks until the subprocess exits). -/
  | replayRun (prog : String) (args : List String)
      (stdoutDest stderrDest : StreamDest)
  /-- A line written to the bridge's own standard error
  (`fmt.Fprintln`/`fmt.Fprintf` to `os.Stderr`). -/
  | stderrLine (msg : String)
  /-- An image-transfer attempt: `syscall.Exec(path, argv, env)`. -/
  | execImage (path : String) (argv : List String) (env : List String)
  deriving DecidableEq, Repr

/-- How the bridge's own code stops executing. -/
inductive Outcome where
  /-- `os.Exit(code)`. -/
  | exited (code : Nat)
  /-- `syscall.Exec` succeeded: the process image was replaced. -/
  | replaced (path : String) (argv : List String) (env : List String)
  deriving DecidableEq, Repr

/-- Oracle for the OS-dependent results the program consumes.
`lookPath s` is the result of `exec.LookPath(s)` (`.ok` carries the
resolved path, `.error` the error text); `execErr path argv env` is
`none` when `syscall.Exec(path, argv, env)` replaces the image and
`some e` when it returns error `e`; `logsRunErr` is the (discarded)
result of `logs.Run()`; `environ` is `os.Environ()`. -/
structure World where
  lookPath : String → Except String String
  execErr : String → List String → List String → Option String
  logsRunErr : Option String
  environ : List String

/-- `const defaultDocker = "/opt/saba-chan/docker/docker"` -/
def defaultDocker : String := "/opt/saba-chan/docker/docker"

/-- `const initialLogTail = "200"` -/
def initialLogTail : String := "200"

/-- The exit code in `os.Exit(1)` on a missing required argument. -/
def usageExitCode : Nat := 1

/-- The exit code in `os.Exit(2)` when `exec.LookPath` fails. -/
def runtimeNotFoundExitCode : Nat := 2

/-- The exit code in `os.Exit(3)` when `syscall.Exec` returns an error. -/
def execFailedExitCode : Nat := 3

/-- `container := os.Args[1]` (reached only when `len(os.Args) ≥ 2`). -/
def containerOf (osArgs : List String) : String := osArgs.getD 1 ""

/-- `docker := defaultDocker; if len(os.Args) >= 3 { docker = os.Args[2] }`. -/
def dockerOf (osArgs : List String) : String :=
  if 3 ≤ osArgs.length then osArgs.getD 2 "" else defaultDocker

/-- The phase-1 effect: `exec.Command(docker, "logs", "--tail",
initialLogTail, "--timestamps", container)` with both its stdout and its
stderr wired to the bridge's stdout, run to completion by `logs.Run()`. -/
def replayEvent (osArgs : List String) : Event :=
  Event.replayRun (dockerOf osArgs)
    ["logs", "--tail", initialLogTail, "--timestamps", containerOf osArgs]
    StreamDest.toStdout StreamDest.toStdout

/-- `argv := []string{docker, "attach", "--sig-proxy=false", container}`. -/
def attachArgv (osArgs : List String) : List String :=
  [dockerOf osArgs, "attach", "--sig-proxy=false", containerOf osArgs]

/-- Shallow embedding of `func main()` of `saba-docker-io/main.go`:
the trace of effects and the final outcome, given `os.Args` and the
world oracle. -/
def main (osArgs : List String) (w : World) : List Event × Outcome :=
  if osArgs.length < 2 then
    ([Event.stderrLine "Usage: saba-docker-io <container_name> [docker_path]"],
     Outcome.exited usageExitCode)
  else
    match w.lookPath (dockerOf osArgs) with
    | Except.error e =>
        ([replayEvent osArgs,
          Event.stderrLine
            ("[saba-docker-io] docker not found at " ++ dockerOf osArgs ++ ": " ++ e)],
         Outcome.exited runtimeNotFoundExitCode)
    | Except.ok dockerPath =>
        match w.execErr dockerPath (attachArgv osArgs) w.environ with
        | some e =>
            ([replayEvent osArgs,
              Event.execImage dockerPath (attachArgv osArgs) w.environ,
              Event.stderrLine ("[saba-docker-io] exec failed: " ++ e)],
             Outcome.exited execFailedExitCode)
        | none =>
            ([replayEvent osArgs,
              Event.execImage dockerPath (attachArgv osArgs) w.environ],
             Outcome.replaced dockerPath (attachArgv osArgs) w.environ)

/-- Recognises the phase-1 replay event. -/
def Event.isReplay : Event → Bool
  | Event.replayRun _ _ _ _ => true
  | _ => false

/-- Recognises an image-transfer attempt. -/
def Event.isExecAttempt : Event → Bool
  | Event.execImage _ _ _ => true
  | _ => false

/-- Recognises a write to the bridge's standard error. -/
def Event.isStderr : Event → Bool
  | Event.stderrLine _ => true
  | _ => false

/-- The run got past the replay stage into the live relay stage: its
outcome is decided by executable lookup or image transfer, never by
replay. -/
def reachesRelay (r : List Event × Outcome) : Prop :=
  r.2 = Outcome.exited runtimeNotFoundExitCode ∨
  r.2 = Outcome.exited execFailedExitCode ∨
  ∃ p a env, r.2 = Outcome.replaced p a env

/-- A concrete three-argument invocation (argv[0], container, runtime)
used by concrete instantiations below. -/
def osArgs0 : List String := ["saba-docker-io", "mc", "docker"]

/-- A world in which executable lookup succeeds (at a path different from
the supplied runtime string) and the image transfer succeeds. -/
def wOk : World where
  lookPath := fun _ => Except.ok "/opt/docker-cli/docker"
  execErr := fun _ _ _ => none
  logsRunErr := none
  environ := ["HOME=/root"]

/-- A world in which executable lookup fails and the replay subprocess
also failed. -/
def wNoRt : World where
  lookPath := fun s => Except.error ("exec: " ++ s ++ ": executable file not found")
  execErr := fun _ _ _ => none
  logsRunErr := some "exit status 1"
  environ := []

/-- A world in which executable lookup succeeds but the image transfer
itself fails. -/
def wExecFail : World where
  lookPath := fun _ => Except.ok "/opt/docker-cli/docker"
  execErr := fun _ _ _ => some "permission denied"
  logsRunErr := none
  environ := []

/-- Branch lemma: with fewer than two arguments, the run is the usage
error. -/
theorem main_usage (osArgs : List String) (w : World)
    (hargs : osArgs.length < 2) :
    main osArgs w =
      ([Event.stderrLine "Usage: saba-docker-io <container_name> [docker_path]"],
       Outcome.exited usageExitCode) := by
  unfold main
  rw [if_pos hargs]

/-- Branch lemma: with a container argument present and executable lookup
failing, the run is the replay event followed by the diagnostic, exiting
with the runtime-not-found code. -/
theorem main_lookup_error (osArgs : List String) (w : World) (e : String)
    (hargs : 2 ≤ osArgs.length)
    (he : w.lookPath (dockerOf osArgs) = Except.error e) :
    main osArgs w =
      ([replayEvent osArgs,
        Event.stderrLine
          ("[saba-docker-io] docker not found at " ++ dockerOf osArgs ++ ": " ++ e)],
       Outcome.exited runtimeNotFoundExitCode) := by
  unfold main
  rw [if_neg (by omega), he]

/-- Branch lemma: lookup succeeded and the image transfer succeeded — the
process image is replaced. -/
theorem main_exec_ok (osArgs : List String) (w : World) (p : String)
    (hargs : 2 ≤ osArgs.length)
    (hp : w.lookPath (dockerOf osArgs) = Except.ok p)
    (he : w.execErr p (attachArgv osArgs) w.environ = none) :
    main osArgs w =
      ([replayEvent osArgs, Event.execImage p (attachArgv osArgs) w.environ],
       Outcome.replaced p (attachArgv osArgs) w.environ) := by
  unfold main
  rw [if_neg (by omega), hp]
  dsimp only
  rw [he]

/-- Branch lemma: lookup succeeded but the image transfer failed — the
failure is reported and the run exits with the exec-failed code. -/
theorem main_exec_err (osArgs : List String) (w : World) (p e : String)
    (hargs : 2 ≤ osArgs.length)
    (hp : w.lookPath (dockerOf osArgs) = Except.ok p)
    (he : w.execErr p (attachArgv osArgs) w.environ = some e) :
    main osArgs w =
      ([replayEvent osArgs, Event.execImage p (attachArgv osArgs) w.environ,
        Event.stderrLine ("[saba-docker-io] exec failed: " ++ e)],
       Outcome.exited execFailedExitCode) := by
  unfold main
  rw [if_neg (by omega), hp]
  dsimp only
  rw [he]

/-- C1: after the runtime executable has been resolved, the bridge's
image-transfer attempt (which on success replaces the process image) has
argument vector exactly `[runtime, "attach", "--sig-proxy=false",
container]` and passes the bridge's current environment through
unmodified. -/
theorem attach_invocation_exact (osArgs : List String) (w : World) (p : String)
    (hargs : 2 ≤ osArgs.length) (hp : w.lookPath (dockerOf osArgs) = Except.ok p) :
    ∃ tail, (main osArgs w).1 =
      replayEvent osArgs ::
        Event.execImage p
          [dockerOf osArgs, "attach", "--sig-proxy=false", containerOf osArgs]
          w.environ :: tail := by
  cases he : w.execErr p (attachArgv osArgs) w.environ with
  | none => exact ⟨[], by rw [main_exec_ok osArgs w p hargs hp he]; rfl⟩
  | some e =>
      exact ⟨[Event.stderrLine ("[saba-docker-io] exec failed: " ++ e)],
        by rw [main_exec_err osArgs w p e hargs hp he]; rfl⟩

/-- C1 witness: the hypotheses hold and the conclusion is realised at a
concrete invocation and world. -/
theorem attach_invocation_exact_witness :
    ∃ tail, (main ["saba-docker-io", "mc", "docker"] wOk).1 =
      replayEvent ["saba-docker-io", "mc", "docker"] ::
        Event.execImage "/opt/docker-cli/docker"
          [dockerOf ["saba-docker-io", "mc", "docker"], "attach", "--sig-proxy=false",
            containerOf ["saba-docker-io", "mc", "docker"]]
          wOk.environ :: tail :=
  attach_invocation_exact ["saba-docker-io", "mc", "docker"] wOk
    "/opt/docker-cli/docker" (by decide) rfl

/-- C2: in every run the replay event occurs at most once, it never occurs
anywhere but as the very first step (no reachable state returns to the
replay stage), and every image-transfer attempt lies strictly after the
replay event, which (being `cmd.Run()`) denotes the log subprocess run to
completion. -/
theorem replay_once_strictly_before_relay (osArgs : List String) (w : World) :
    (main osArgs w).1.countP (fun e => e.isReplay) ≤ 1 ∧
    (main osArgs w).1.tail.countP (fun e => e.isReplay) = 0 ∧
    ∀ e ∈ (main osArgs w).1, e.isExecAttempt = true →
      e ∈ (main osArgs w).1.tail ∧ (main osArgs w).1.head? = some (replayEvent osArgs) := by
  by_cases hlen : osArgs.length < 2
  · rw [main_usage osArgs w hlen]
    refine ⟨by simp [Event.isReplay], by simp, ?_⟩
    intro e he hx
    simp at he
    subst he
    simp [Event.isExecAttempt] at hx
  · have hargs : 2 ≤ osArgs.length := by omega
    cases hl : w.lookPath (dockerOf osArgs) with
    | error e =>
        rw [main_lookup_error osArgs w e hargs hl]
        refine ⟨?_, ?_, ?_⟩
        · simp [Event.isReplay, replayEvent]
        · simp [Event.isReplay]
        · intro ev hev hx
          simp at hev
          rcases hev with h | h <;> subst h <;>
            simp [Event.isExecAttempt, replayEvent] at hx
    | ok p =>
        cases he : w.execErr p (attachArgv osArgs) w.environ with
        | none =>
            rw [main_exec_ok osArgs w p hargs hl he]
            refine ⟨?_, ?_, ?_⟩
            · simp [Event.isReplay, replayEvent]
            · simp [Event.isReplay]
            · intro ev hev hx
              simp at hev
              rcases hev with h | h
              · subst h; simp [Event.isExecAttempt, replayEvent] at hx
              · subst h; exact ⟨by simp, rfl⟩
        | some e =>
            rw [main_exec_err osArgs w p e hargs hl he]
            refine ⟨?_, ?_, ?_⟩
            · simp [Event.isReplay, replayEvent]
            · simp [Event.isReplay]
            · intro ev hev hx
              simp at hev
              rcases hev with h | h | h
              · subst h; simp [Event.isExecAttempt, replayEvent] at hx
              · subst h; exact ⟨by simp, rfl⟩
              · subst h; simp [Event.isExecAttempt] at hx

/-- C3: the discarded result of the replay subprocess (`_ = logs.Run()`)
has no influence on the bridge's behaviour, and whenever a container name
is present the run always proceeds to the live relay stage: its outcome is
decided there, never by the replay stage. -/
theorem replay_failure_swallowed (osArgs : List String) (w : World)
    (r r' : Option String) (hargs : 2 ≤ osArgs.length) :
    main osArgs { w with logsRunErr := r } = main osArgs { w with logsRunErr := r' } ∧
    reachesRelay (main osArgs w) := by
  refine ⟨rfl, ?_⟩
  unfold reachesRelay
  cases hl : w.lookPath (dockerOf osArgs) with
  | error e => rw [main_lookup_error osArgs w e hargs hl]; exact Or.inl rfl
  | ok p =>
      cases he : w.execErr p (attachArgv osArgs) w.environ with
      | none =>
          rw [main_exec_ok osArgs w p hargs hl he]
          exact Or.inr (Or.inr ⟨p, attachArgv osArgs, w.environ, rfl⟩)
      | some e =>
          rw [main_exec_err osArgs w p e hargs hl he]
          exact Or.inr (Or.inl rfl)

/-- C3 witness: at a concrete invocation, two worlds differing only in the
replay subprocess's result behave identically, and the run reaches the
relay stage. -/
theorem replay_failure_swallowed_witness :
    main ["saba-docker-io", "mc"] { wNoRt with logsRunErr := some "exit status 1" } =
      main ["saba-docker-io", "mc"] { wNoRt with logsRunErr := none } ∧
    reachesRelay (main ["saba-docker-io", "mc"] wNoRt) :=
  replay_failure_swallowed ["saba-docker-io", "mc"] wNoRt
    (some "exit status 1") none (by decide)

/-- C4: when executable lookup fails, the bridge writes the diagnostic to
standard error and exits with the runtime-not-found code, and no
image-transfer attempt appears anywhere in the run. -/
theorem runtime_not_found_fatal (osArgs : List String) (w : World) (e : String)
    (hargs : 2 ≤ osArgs.length)
    (he : w.lookPath (dockerOf osArgs) = Except.error e) :
    (main osArgs w).2 = Outcome.exited runtimeNotFoundExitCode ∧
    Event.stderrLine ("[saba-docker-io] docker not found at " ++ dockerOf osArgs ++ ": " ++ e)
      ∈ (main osArgs w).1 ∧
    ∀ ev ∈ (main osArgs w).1, ev.isExecAttempt = false := by
  rw [main_lookup_error osArgs w e hargs he]
  refine ⟨rfl, by simp, ?_⟩
  intro ev hev
  simp at hev
  rcases hev with h | h <;> subst h <;> rfl

/-- C4 witness at a concrete invocation and world with no resolvable
runtime. -/
theorem runtime_not_found_fatal_witness :
    (main ["saba-docker-io", "mc"] wNoRt).2 = Outcome.exited runtimeNotFoundExitCode ∧
    Event.stderrLine ("[saba-docker-io] docker not found at " ++ dockerOf ["saba-docker-io", "mc"]
        ++ ": " ++ ("exec: " ++ dockerOf ["saba-docker-io", "mc"] ++ ": executable file not found"))
      ∈ (main ["saba-docker-io", "mc"] wNoRt).1 ∧
    ∀ ev ∈ (main ["saba-docker-io", "mc"] wNoRt).1, ev.isExecAttempt = false :=
  runtime_not_found_fatal ["saba-docker-io", "mc"] wNoRt
    ("exec: " ++ dockerOf ["saba-docker-io", "mc"] ++ ": executable file not found")
    (by decide) rfl

/-- C5: when the image-transfer call itself fails, the bridge writes the
failure to standard error and exits with the exec-failed code, with
exactly one image-transfer attempt in the run (no retry). -/
theorem exec_failed_fatal (osArgs : List String) (w : World) (p e : String)
    (hargs : 2 ≤ osArgs.length)
    (hp : w.lookPath (dockerOf osArgs) = Except.ok p)
    (he : w.execErr p (attachArgv osArgs) w.environ = some e) :
    (main osArgs w).2 = Outcome.exited execFailedExitCode ∧
    Event.stderrLine ("[saba-docker-io] exec failed: " ++ e) ∈ (main osArgs w).1 ∧
    (main osArgs w).1.countP (fun ev => ev.isExecAttempt) = 1 := by
  rw [main_exec_err osArgs w p e hargs hp he]
  refine ⟨rfl, by simp, ?_⟩
  simp [List.countP_cons, Event.isExecAttempt, replayEvent]

/-- C5 witness at a concrete invocation and world whose image transfer
fails. -/
theorem exec_failed_fatal_witness :
    (main ["saba-docker-io", "mc"] wExecFail).2 = Outcome.exited execFailedExitCode ∧
    Event.stderrLine ("[saba-docker-io] exec failed: " ++ "permission denied")
      ∈ (main ["saba-docker-io", "mc"] wExecFail).1 ∧
    (main ["saba-docker-io", "mc"] wExecFail).1.countP (fun ev => ev.isExecAttempt) = 1 :=
  exec_failed_fatal ["saba-docker-io", "mc"] wExecFail
    "/opt/docker-cli/docker" "permission denied" (by decide) rfl rfl

/-- C6: the replay stage invokes the runtime's log command with arguments
exactly `["logs", "--tail", "200", "--timestamps", container]`, and both
the subprocess's stdout and its stderr are wired to the bridge's own
stdout; it is the first effect of every run that has a container
argument. -/
theorem replay_invocation_exact (osArgs : List String) (w : World)
    (hargs : 2 ≤ osArgs.length) :
    (main osArgs w).1.head? = some (Event.replayRun (dockerOf osArgs)
      ["logs", "--tail", "200", "--timestamps", containerOf osArgs]
      StreamDest.toStdout StreamDest.toStdout) := by
  cases hl : w.lookPath (dockerOf osArgs) with
  | error e => rw [main_lookup_error osArgs w e hargs hl]; rfl
  | ok p =>
      cases he : w.execErr p (attachArgv osArgs) w.environ with
      | none => rw [main_exec_ok osArgs w p hargs hl he]; rfl
      | some e => rw [main_exec_err osArgs w p e hargs hl he]; rfl

/-- C6 witness at a concrete invocation. -/
theorem replay_invocation_exact_witness :
    (main ["saba-docker-io", "mc"] wOk).1.head? =
      some (Event.replayRun (dockerOf ["saba-docker-io", "mc"])
        ["logs", "--tail", "200", "--timestamps", containerOf ["saba-docker-io", "mc"]]
        StreamDest.toStdout StreamDest.toStdout) :=
  replay_invocation_exact ["saba-docker-io", "mc"] wOk (by decide)

/-- C7: with `runtime_path` omitted the fixed default path is used, with it
supplied it replaces the default, and the same runtime string appears in
the replay invocation and in the attach argument vector, and is the
string given to executable lookup. -/
theorem runtime_path_selection (osArgs : List String) (w : World)
    (hargs : 2 ≤ osArgs.length) :
    (osArgs.length = 2 → dockerOf osArgs = defaultDocker) ∧
    (3 ≤ osArgs.length → dockerOf osArgs = osArgs.getD 2 "") ∧
    (main osArgs w).1.head? = some (replayEvent osArgs) ∧
    ∀ p a env, Event.execImage p a env ∈ (main osArgs w).1 →
      a = attachArgv osArgs ∧ w.lookPath (dockerOf osArgs) = Except.ok p := by
  refine ⟨?_, ?_, ?_, ?_⟩
  · intro h
    unfold dockerOf
    rw [if_neg (by omega)]
  · intro h
    unfold dockerOf
    rw [if_pos h]
  · cases hl : w.lookPath (dockerOf osArgs) with
    | error e => rw [main_lookup_error osArgs w e hargs hl]; rfl
    | ok p =>
        cases he : w.execErr p (attachArgv osArgs) w.environ with
        | none => rw [main_exec_ok osArgs w p hargs hl he]; rfl
        | some e => rw [main_exec_err osArgs w p e hargs hl he]; rfl
  · intro p a env hmem
    cases hl : w.lookPath (dockerOf osArgs) with
    | error e =>
        rw [main_lookup_error osArgs w e hargs hl] at hmem
        simp [replayEvent] at hmem
    | ok q =>
        cases he : w.execErr q (attachArgv osArgs) w.environ with
        | none =>
            rw [main_exec_ok osArgs w q hargs hl he] at hmem
            simp [replayEvent] at hmem
            obtain ⟨hpq, ha, henv⟩ := hmem
            exact ⟨ha, by rw [hpq]⟩
        | some e =>
            rw [main_exec_err osArgs w q e hargs hl he] at hmem
            simp [replayEvent] at hmem
            obtain ⟨hpq, ha, henv⟩ := hmem
            exact ⟨ha, by rw [hpq]⟩

/-- C7 witness at a concrete invocation with `runtime_path` supplied. -/
theorem runtime_path_selection_witness :
    (osArgs0.length = 2 → dockerOf osArgs0 = defaultDocker) ∧
    (3 ≤ osArgs0.length → dockerOf osArgs0 = osArgs0.getD 2 "") ∧
    (main osArgs0 wOk).1.head? = some (replayEvent osArgs0) ∧
    ∀ p a env, Event.execImage p a env ∈ (main osArgs0 wOk).1 →
      a = attachArgv osArgs0 ∧ wOk.lookPath (dockerOf osArgs0) = Except.ok p :=
  runtime_path_selection osArgs0 wOk (by decide)

/-- C8: with the required container argument missing, the bridge writes the
usage line to standard error and exits with the usage code, and the three
terminating exit codes are pairwise distinct. -/
theorem usage_error_distinct_codes (osArgs : List String) (w : World)
    (hargs : osArgs.length < 2) :
    main osArgs w =
      ([Event.stderrLine "Usage: saba-docker-io <container_name> [docker_path]"],
       Outcome.exited usageExitCode) ∧
    usageExitCode ≠ runtimeNotFoundExitCode ∧
    runtimeNotFoundExitCode ≠ execFailedExitCode ∧
    usageExitCode ≠ execFailedExitCode :=
  ⟨main_usage osArgs w hargs, by decide, by decide, by decide⟩

/-- C8 witness: a one-argument invocation. -/
theorem usage_error_distinct_codes_witness :
    main ["saba-docker-io"] wOk =
      ([Event.stderrLine "Usage: saba-docker-io <container_name> [docker_path]"],
       Outcome.exited usageExitCode) ∧
    usageExitCode ≠ runtimeNotFoundExitCode ∧
    runtimeNotFoundExitCode ≠ execFailedExitCode ∧
    usageExitCode ≠ execFailedExitCode :=
  usage_error_distinct_codes ["saba-docker-io"] wOk (by decide)

/-- C9: the image-transfer attempt executes the file at the path returned
by executable lookup while handing the replacement image an argv whose
first element is the original runtime string; whenever the resolved path
differs from that string, the executed file differs from argv[0]. -/
theorem argv_head_vs_executed_path (osArgs : List String) (w : World) (p : String)
    (hargs : 2 ≤ osArgs.length)
    (hp : w.lookPath (dockerOf osArgs) = Except.ok p) :
    Event.execImage p (attachArgv osArgs) w.environ ∈ (main osArgs w).1 ∧
    (attachArgv osArgs).head? = some (dockerOf osArgs) ∧
    (p ≠ dockerOf osArgs → (attachArgv osArgs).head? ≠ some p) := by
  refine ⟨?_, rfl, ?_⟩
  · cases he : w.execErr p (attachArgv osArgs) w.environ with
    | none => rw [main_exec_ok osArgs w p hargs hp he]; simp
    | some e => rw [main_exec_err osArgs w p e hargs hp he]; simp
  · intro hne hcontra
    rw [show (attachArgv osArgs).head? = some (dockerOf osArgs) from rfl] at hcontra
    exact hne (Option.some.inj hcontra).symm

/-- C9 witness: a bare runtime name that lookup resolves to a different
absolute path. -/
theorem argv_head_vs_executed_path_witness :
    wOk.lookPath (dockerOf osArgs0) = Except.ok "/opt/docker-cli/docker" ∧
    (Event.execImage "/opt/docker-cli/docker" (attachArgv osArgs0) wOk.environ
        ∈ (main osArgs0 wOk).1 ∧
      (attachArgv osArgs0).head? = some (dockerOf osArgs0) ∧
      ("/opt/docker-cli/docker" ≠ dockerOf osArgs0 →
        (attachArgv osArgs0).head? ≠ some "/opt/docker-cli/docker")) :=
  ⟨rfl, argv_head_vs_executed_path osArgs0 wOk "/opt/docker-cli/docker" (by decide) rfl⟩

/-- C10: two invocations that agree on the container argument and on the
supplied runtime path behave identically — command-line arguments beyond
the second are ignored. -/
theorem extra_args_ignored (a b : List String) (w : World)
    (ha : 3 ≤ a.length) (hb : 3 ≤ b.length)
    (h1 : a.getD 1 "" = b.getD 1 "") (h2 : a.getD 2 "" = b.getD 2 "") :
    main a w = main b w := by
  have hna : ¬ a.length < 2 := by omega
  have hnb : ¬ b.length < 2 := by omega
  have hc : containerOf a = containerOf b := h1
  have hd : dockerOf a = dockerOf b := by
    unfold dockerOf
    rw [if_pos ha, if_pos hb]
    exact h2
  have hre : replayEvent a = replayEvent b := by
    unfold replayEvent
    rw [hc, hd]
  have hat : attachArgv a = attachArgv b := by
    unfold attachArgv
    rw [hc, hd]
  unfold main
  rw [if_neg hna, if_neg hnb, hd, hre, hat]

/-- C10 witness: an invocation with two extra trailing arguments behaves
exactly like one without them (and with a different argv[0]). -/
theorem extra_args_ignored_witness :
    main ["saba-docker-io", "mc", "docker", "--evil", "extra"] wOk =
      main ["other-name", "mc", "docker"] wOk :=
  extra_args_ignored ["saba-docker-io", "mc", "docker", "--evil", "extra"]
    ["other-name", "mc", "docker"] wOk (by decide) (by decide) rfl rfl

end SabaDockerBridge
